import Mathlib

/-!
# Verification of the KubeVirt VirtualMachine resource engine

A shallow embedding of the `KubeVirtVMResource` implementation
(`provider/resource_kubernetes_pod.go`, third document: the framework-based
KubeVirt VM resource) and of the legacy SDK delete handler
(`kubevirt/resource_virtualmachine.go`).  Pure manifest construction is
embedded as Lean functions; the gateway (Kubernetes dynamic client) is
modelled by explicit call traces plus oracle results for each remote call.
-/

namespace KubeVirtTF

/-- The resource data model `KubeVirtVMResourceModel`.  Terraform optional
attributes are `Option`s (`none` = null); required attributes are plain
values.  `ns` is `namespace` in the source (a Lean keyword).  The source
also checks `IsUnknown` alongside `IsNull`; plan-time unknowns are not
modelled, so `none` stands for null-or-unknown. -/
structure VMSpec where
  name : String
  ns : Option String := none
  image : String
  memory : String
  cpu : Int
  machineType : Option String := none
  architecture : Option String := none
  hugepages : Option String := none
  sidecarHook : Option String := none
  nodeSelector : Option (List (String × String)) := none
  tolerations : Option (List String) := none
  hostDevices : Option (List String) := none
  usbDevices : Option (List String) := none
  networkInterfaces : Option (List String) := none
  cloudInit : Option String := none
  coderAgentToken : Option String := none
  workspaceTransition : Option String := none
deriving Repr, DecidableEq

/-! ## Cloud-init bootstrap template

The Go source wraps the raw cloud-init payload with a fixed bootstrap
script via `fmt.Sprintf` when a Coder agent token is supplied.  The format
string has three `%s` verbs (payload, token, token); the four literal
segments between the verbs are reproduced byte for byte below. -/

def coderWrapA : String :=
  "#cloud-config\n"

def coderWrapB : String :=
  "\n"
    ++ "\n"
    ++ "# Coder Agent Setup (following working ubuntu-vm pattern)\n"
    ++ "write_files:\n"
    ++ "  - path: /opt/coder/init\n"
    ++ "    permissions: \"0755\"\n"
    ++ "    content: |\n"
    ++ "      #!/bin/bash\n"
    ++ "      set -e\n"
    ++ "      \n"
    ++ "      # install and start code-server\n"
    ++ "      curl -fsSL https://code-server.dev/install.sh | sh -s -- --method=standalone --prefix=/tmp/code-server --version 4.11.0\n"
    ++ "      /tmp/code-server/bin/code-server --auth none --port 13337 >/tmp/code-server.log 2>&1 &\n"
    ++ "      \n"
    ++ "      # Start Coder agent\n"
    ++ "      exec coder agent --url https://coder-dev.nrp-nautilus.io --token "

def coderWrapC : String :=
  "\n"
    ++ "      \n"
    ++ "  - path: /etc/systemd/system/coder-agent.service\n"
    ++ "    permissions: \"0644\"\n"
    ++ "    content: |\n"
    ++ "      [Unit]\n"
    ++ "      Description=Coder Agent\n"
    ++ "      After=network-online.target\n"
    ++ "      Wants=network-online.target\n"
    ++ "      \n"
    ++ "      [Service]\n"
    ++ "      User=coder\n"
    ++ "      ExecStart=/opt/coder/init\n"
    ++ "      EnvironmentFile=/var/run/secrets/.coder-agent-token\n"
    ++ "      Restart=always\n"
    ++ "      RestartSec=10\n"
    ++ "      TimeoutStopSec=90\n"
    ++ "      KillMode=process\n"
    ++ "      OOMScoreAdjust=-900\n"
    ++ "      SyslogIdentifier=coder-agent\n"
    ++ "      \n"
    ++ "      [Install]\n"
    ++ "      WantedBy=multi-user.target\n"
    ++ "\n"
    ++ "bootcmd:\n"
    ++ "  - mkdir -p /var/run/secrets\n"
    ++ "  - echo CODER_AGENT_TOKEN="

def coderWrapD : String :=
  " > /var/run/secrets/.coder-agent-token\n"
    ++ "\n"
    ++ "runcmd:\n"
    ++ "  - systemctl enable coder-agent\n"
    ++ "  - systemctl start coder-agent\n"
    ++ "  - echo \"Coder agent setup complete!\""

/-- `fmt.Sprintf(template, cloudInitData, token, token)`: the enhanced
cloud-init text built when a Coder agent token is present. -/
def wrapCoderAgent (cloudInitData token : String) : String :=
  coderWrapA ++ cloudInitData ++ coderWrapB ++ token ++ coderWrapC ++ token ++ coderWrapD

/-- The effective cloud-init payload: the raw payload, wrapped with the
bootstrap template when a Coder agent token is supplied; `none` when the
`cloud_init` attribute is null. -/
def effectiveCloudInit (d : VMSpec) : Option String :=
  match d.cloudInit with
  | none => none
  | some ci =>
    match d.coderAgentToken with
    | some t => some (wrapCoderAgent ci t)
    | none => some ci

/-- `len(cloudInitData) > 2048` in the source: the inline size ceiling. -/
def cloudInitLimit : Nat := 2048

/-- `fmt.Sprintf("coder-%s-cloudinit", data.Name.ValueString())`. -/
def cloudInitSecretName (d : VMSpec) : String :=
  "coder-" ++ d.name ++ "-cloudinit"

/-! ## Base64 (Go `base64.StdEncoding.EncodeToString`) -/

def b64Alphabet : List Char :=
  "ABCDEFGHIJKLMNOPQRSTUVWXYZabcdefghijklmnopqrstuvwxyz0123456789+/".toList

def b64Char (n : Nat) : Char := b64Alphabet.getD n 'A'

def b64EncodeBytes : List Nat → List Char
  | [] => []
  | [b0] => [b64Char (b0 / 4), b64Char (b0 % 4 * 16), '=', '=']
  | [b0, b1] =>
    [b64Char (b0 / 4), b64Char (b0 % 4 * 16 + b1 / 16), b64Char (b1 % 16 * 4), '=']
  | b0 :: b1 :: b2 :: rest =>
    b64Char (b0 / 4) :: b64Char (b0 % 4 * 16 + b1 / 16) ::
      b64Char (b1 % 16 * 4 + b2 / 64) :: b64Char (b2 % 64) :: b64EncodeBytes rest

def base64Encode (s : String) : String :=
  String.mk (b64EncodeBytes (s.toUTF8.toList.map UInt8.toNat))

/-! ## Toleration parsing

The source parses each toleration string inside `createVM`
(`strings.Contains` / `strings.SplitN` with limit 2). -/

/-- A toleration object as emitted into the manifest: the map keys that the
source may set.  A field is `none` when the source does not put that key
into the map. -/
structure Toleration where
  key : Option String := none
  value : Option String := none
  operator : Option String := none
  effect : Option String := none
deriving Repr, DecidableEq

/-- `strings.SplitN(s, sep, 2)` for a single-character separator, on the
character list: the part before the first occurrence and the part after
it.  (When the separator does not occur the source never uses the second
component: it calls this only after a `strings.Contains` check.) -/
def splitFirstL (c : Char) : List Char → List Char × List Char
  | [] => ([], [])
  | x :: xs =>
    if x = c then ([], xs)
    else
      let p := splitFirstL c xs
      (x :: p.1, p.2)

/-- The per-string toleration parse from `createVM`. -/
def parseToleration (tol : String) : Toleration :=
  let l := tol.toList
  if l.contains ':' then
    let p := splitFirstL ':' l
    let keyValue := p.1
    let eff := p.2
    if keyValue.contains '=' then
      let kv := splitFirstL '=' keyValue
      { key := some (String.mk kv.1), value := some (String.mk kv.2),
        effect := some (String.mk eff) }
    else
      { key := some (String.mk keyValue), operator := some "Exists",
        effect := some (String.mk eff) }
  else
    { key := some tol, operator := some "Exists", effect := some "NoSchedule" }

/-! ## Manifest data model

The source builds the manifest as nested `map[string]interface{}`; here it
is a typed tree with one field per map key the source can set (`none` /
`[]` when the source does not set it). -/

structure DiskDev where
  name : String
  bus : String
deriving Repr, DecidableEq

structure IfaceDev where
  name : String
  binding : String
deriving Repr, DecidableEq

structure HostDev where
  name : String
  deviceName : String
deriving Repr, DecidableEq

structure UsbDev where
  name : String
  vendor : String
  product : String
  deviceName : String
deriving Repr, DecidableEq

/-- A volume entry.  Exactly one of the three payload fields is set by the
source: `containerDisk.image`, `cloudInitNoCloud.userData`, or
`cloudInitNoCloud.secretRef.name`. -/
structure Volume where
  name : String
  containerDiskImage : Option String := none
  cloudInitUserData : Option String := none
  cloudInitSecretRef : Option String := none
deriving Repr, DecidableEq

structure Network where
  name : String
  binding : String
deriving Repr, DecidableEq

structure DomainResources where
  memory : String
  cpu : Int
  hugepagesRequest : Option (String × String) := none
  limits : Option (List (String × String)) := none
deriving Repr, DecidableEq

structure Domain where
  disks : List DiskDev
  interfaces : List IfaceDev
  hostDevices : Option (List HostDev) := none
  usb : Option (List UsbDev) := none
  resources : DomainResources
  machineType : Option String := none
  cpuArchitecture : Option String := none
deriving Repr, DecidableEq

structure TemplateSpec where
  domain : Domain
  volumes : List Volume
  networks : List Network
  nodeSelector : Option (List (String × String)) := none
  tolerations : Option (List Toleration) := none
deriving Repr, DecidableEq

/-- The VirtualMachine manifest.  `hookSidecars` is the value of the
`hooks.kubevirt.io/hookSidecars` template-metadata annotation key when the
source sets it.  `resourceVersion` is carried on objects fetched from the
store. -/
structure VMManifest where
  apiVersion : String := "kubevirt.io/v1"
  kind : String := "VirtualMachine"
  name : String
  ns : String
  resourceVersion : Option String := none
  running : Bool
  templateLabels : List (String × String)
  hookSidecars : Option String := none
  tmpl : TemplateSpec
deriving Repr, DecidableEq

/-- The JSON value for the sidecar-hook annotation key
(`fmt.Sprintf` over the hook name, twice). -/
def hookSidecarsValue (hook : String) : String :=
  "[\x7b\"args\":[\"--version\",\"v1alpha2\"],\"configMap\":\x7b\"hookPath\":\"/usr/bin/onDefineDomain\",\"key\":\""
    ++ hook ++ ".py\",\"name\":\"" ++ hook ++ "\"\x7d\x7d]"

def mkHostDevices (ds : List String) : List HostDev :=
  ds.enum.map fun p => { name := "hostdevice-" ++ toString p.1, deviceName := p.2 }

def mkUsbDevices (ds : List String) : List UsbDev :=
  ds.enum.map fun p =>
    { name := "usb-" ++ toString p.1, vendor := "0x1234", product := "0x5678",
      deviceName := p.2 }

/-- The cloud-init volume entry appended for a given effective payload:
overflow payloads get a secret reference, small ones stay inline.  Takes
the already-computed `effectiveCloudInit` value as its argument. -/
def cloudInitVolumeFor (d : VMSpec) : Option String → List Volume
  | none => []
  | some ci =>
    if cloudInitLimit < ci.utf8ByteSize then
      [{ name := "cloudinitdisk", cloudInitSecretRef := some (cloudInitSecretName d) }]
    else
      [{ name := "cloudinitdisk", cloudInitUserData := some ci }]

/-- The pure manifest construction of `createVM`: the base object plus
every conditional section, with the volume list finalized by the
cloud-init decision.  The `network_interfaces` attribute is never read by
the source, so it does not appear here. -/
def buildManifest (d : VMSpec) (ns : String) : VMManifest :=
  { name := d.name
    ns := ns
    running := true
    templateLabels := [("kubevirt.io/vm", d.name)]
    hookSidecars := d.sidecarHook.map hookSidecarsValue
    tmpl :=
      { domain :=
          { disks := [{ name := "containerdisk", bus := "virtio" }]
            interfaces := [{ name := "default", binding := "bridge" }]
            hostDevices := d.hostDevices.map mkHostDevices
            usb := d.usbDevices.map mkUsbDevices
            resources :=
              { memory := d.memory
                cpu := d.cpu
                hugepagesRequest := d.hugepages.map fun v => ("hugepages-" ++ v, v)
                limits := d.hugepages.map fun v => [("hugepages-" ++ v, v)] }
            machineType := d.machineType
            cpuArchitecture := d.architecture }
        volumes :=
          [{ name := "containerdisk", containerDiskImage := some d.image }]
            ++ cloudInitVolumeFor d (effectiveCloudInit d)
        networks := [{ name := "default", binding := "pod" }]
        nodeSelector := d.nodeSelector
        tolerations := d.tolerations.map (List.map parseToleration) } }

/-- The overflow cloud-init Secret manifest: deterministic name, single
`userdata` key, base64-encoded payload. -/
structure SecretManifest where
  apiVersion : String := "v1"
  kind : String := "Secret"
  name : String
  ns : String
  data : List (String × String)
deriving Repr, DecidableEq

def buildCloudInitSecret (d : VMSpec) (ns ci : String) : SecretManifest :=
  { name := cloudInitSecretName d, ns := ns,
    data := [("userdata", base64Encode ci)] }

/-! ## Remote object gateway

Remote calls (Kubernetes dynamic client) are modelled by a trace of the
calls issued plus oracle results standing for the server's responses. -/

inductive GatewayCall where
  | getVM (ns name : String)
  | createVM (m : VMManifest)
  | updateVM (m : VMManifest)
  | deleteVM (ns name : String)
  | createSecret (s : SecretManifest)
deriving Repr, DecidableEq

def GatewayCall.isCreateSecret : GatewayCall → Bool
  | .createSecret _ => true
  | _ => false

/-- Result of a gateway create, as classified by the source: success,
failure recognized by `k8serrors.IsAlreadyExists`, or any other failure. -/
inductive CreateResult where
  | ok
  | alreadyExists
  | failed (msg : String)
deriving Repr, DecidableEq

/-- Result of a gateway get: the fetched object, a not-found error, or any
other failure. -/
inductive GetResult where
  | found (vm : VMManifest)
  | notFound
  | failed (msg : String)
deriving Repr, DecidableEq

/-- Result of a gateway delete: success, not-found, or any other failure. -/
inductive DeleteResult where
  | ok
  | notFound
  | failed (msg : String)
deriving Repr, DecidableEq

/-- Return value of the `createVM` helper: the created manifest or the
error string it returned. -/
inductive VMResult where
  | ok (m : VMManifest)
  | error (e : String)
deriving Repr, DecidableEq

/-- Outcome of the `createVM` helper: the gateway calls it issued and
either the created manifest or the error it returned. -/
structure CreateVMOutcome where
  calls : List GatewayCall
  result : VMResult
deriving Repr, DecidableEq

/-- Tail of `createVM`: issue the VirtualMachine create; any error aborts
(`vmErr` is `none` on success, the error string otherwise). -/
def finishCreateVM (m : VMManifest) (pre : List GatewayCall)
    (vmErr : Option String) : CreateVMOutcome :=
  match vmErr with
  | some e =>
    { calls := pre ++ [.createVM m],
      result := .error ("failed to create VirtualMachine: " ++ e) }
  | none => { calls := pre ++ [.createVM m], result := .ok m }

/-- `createVM` for a known effective cloud-init payload: the overflow
branch creates the Secret first (tolerating already-exists, aborting on
any other failure), then creates the VirtualMachine. -/
def createVMAux (d : VMSpec) (ns : String) (secretRes : CreateResult)
    (vmErr : Option String) : Option String → CreateVMOutcome
  | some ci =>
    if cloudInitLimit < ci.utf8ByteSize then
      match secretRes with
      | .failed e =>
        { calls := [.createSecret (buildCloudInitSecret d ns ci)],
          result := .error ("failed to create cloud-init secret: " ++ e) }
      | _ => finishCreateVM (buildManifest d ns)
          [.createSecret (buildCloudInitSecret d ns ci)] vmErr
    else finishCreateVM (buildManifest d ns) [] vmErr
  | none => finishCreateVM (buildManifest d ns) [] vmErr

/-- The `createVM` helper method: build the manifest (cloud-init wrapping
and overflow decision included) and issue the gateway calls. -/
def createVM (d : VMSpec) (ns : String) (secretRes : CreateResult)
    (vmErr : Option String) : CreateVMOutcome :=
  createVMAux d ns secretRes vmErr (effectiveCloudInit d)

/-! ## Lifecycle flows (`Create`, `Update`, `Delete` resource methods) -/

/-- Caller-visible outcome of a lifecycle call: the gateway calls issued,
the surfaced error if any, and the computed attributes the source set. -/
structure FlowOutcome where
  calls : List GatewayCall := []
  err : Option String := none
  id : Option String := none
  vmStatus : Option String := none
deriving Repr, DecidableEq

/-- Namespace selection in `Create`/`Update`: the provider default unless
the resource sets one. -/
def planNamespace (d : VMSpec) (providerNs : String) : String :=
  match d.ns with
  | some s => s
  | none => providerNs

/-- Namespace selection in `Read`/`Delete`: `ValueString` (empty for
null), falling back to the provider default when empty. -/
def stateNamespace (d : VMSpec) (providerNs : String) : String :=
  let s := d.ns.getD ""
  if s = "" then providerNs else s

/-- The `Create` resource method: skip VM creation unless the workspace
transition is absent or `start`; otherwise run `createVM` and project the
computed attributes. -/
def createFlow (d : VMSpec) (providerNs : String) (secretRes : CreateResult)
    (vmErr : Option String) : FlowOutcome :=
  let ns := planNamespace d providerNs
  let skip : Bool :=
    match d.workspaceTransition with
    | some t => t != "start"
    | none => false
  if skip then {}
  else
    let o := createVM d ns secretRes vmErr
    match o.result with
    | .error e => { calls := o.calls, err := some e }
    | .ok _ =>
      { calls := o.calls, id := some (ns ++ "/" ++ d.name),
        vmStatus := some "Created" }

/-- The read-modify-write step of the `Update` method: flip `spec.running`
on the freshly fetched object, leaving every other field untouched. -/
def setRunning (vm : VMManifest) (b : Bool) : VMManifest :=
  { vm with running := b }

/-- Oracle results for the gateway calls an `Update` may issue. -/
structure UpdateEnv where
  getRes : GetResult
  secretRes : CreateResult := .ok
  vmCreateErr : Option String := none
  vmUpdateErr : Option String := none
deriving Repr, DecidableEq

/-- The `Update` resource method.  The source has two sequential `if`s
(start, then stop); since their conditions are mutually exclusive on the
new transition value, they are rendered as a nested if-then-else. -/
def updateFlow (d : VMSpec) (oldTransition providerNs : String)
    (env : UpdateEnv) : FlowOutcome :=
  let ns := planNamespace d providerNs
  match d.workspaceTransition with
  | none => {}
  | some newT =>
    if newT = "start" ∧ oldTransition ≠ "start" then
      match env.getRes with
      | .notFound =>
        let o := createVM d ns env.secretRes env.vmCreateErr
        match o.result with
        | .error e =>
          { calls := .getVM ns d.name :: o.calls,
            err := some ("Failed to create VM: " ++ e) }
        | .ok _ =>
          { calls := .getVM ns d.name :: o.calls, vmStatus := some "Created" }
      | .failed e =>
        { calls := [.getVM ns d.name], err := some ("Failed to get VM: " ++ e) }
      | .found vm =>
        match env.vmUpdateErr with
        | some e =>
          { calls := [.getVM ns d.name, .updateVM (setRunning vm true)],
            err := some ("Failed to start VM: " ++ e) }
        | none =>
          { calls := [.getVM ns d.name, .updateVM (setRunning vm true)],
            vmStatus := some "Running" }
    else if newT = "stop" ∧ oldTransition ≠ "stop" then
      match env.getRes with
      | .notFound => { calls := [.getVM ns d.name], vmStatus := some "Stopped" }
      | .failed e =>
        { calls := [.getVM ns d.name], err := some ("Failed to get VM: " ++ e) }
      | .found vm =>
        match env.vmUpdateErr with
        | some e =>
          { calls := [.getVM ns d.name, .updateVM (setRunning vm false)],
            err := some ("Failed to stop VM: " ++ e) }
        | none =>
          { calls := [.getVM ns d.name, .updateVM (setRunning vm false)],
            vmStatus := some "Stopped" }
    else {}

/-- The `Delete` resource method of the framework VM resource: skip the
remote delete unless the recorded workspace transition is absent, `stop`,
or `delete`; not-found on delete is success. -/
def deleteFlow (d : VMSpec) (providerNs : String)
    (delRes : DeleteResult) : FlowOutcome :=
  let ns := stateNamespace d providerNs
  let skip : Bool :=
    match d.workspaceTransition with
    | some t => t != "stop" && t != "delete"
    | none => false
  if skip then {}
  else
    match delRes with
    | .failed e =>
      { calls := [.deleteVM ns d.name],
        err := some ("Failed to delete VirtualMachine: " ++ e) }
    | _ => { calls := [.deleteVM ns d.name] }

/-- The legacy SDK resource's delete handler
(`resourceKubevirtVirtualMachineDelete`): always deletes; not-found is
success, any other failure surfaces. -/
def resourceKubevirtVirtualMachineDelete (delRes : DeleteResult) : Option String :=
  match delRes with
  | .failed e => some ("failed to delete virtual machine: " ++ e)
  | _ => none

/-! ## Concrete sample inputs used by the witnesses and counterexamples -/

/-- A spec with a small inline cloud-init payload. -/
def c1Spec : VMSpec :=
  { name := "w1", ns := some "ns", image := "img", memory := "1Gi", cpu := 1,
    cloudInit := some "hello" }

/-- A spec requesting the `start` transition. -/
def c3Spec : VMSpec :=
  { name := "w1", ns := some "ns", image := "img", memory := "1Gi", cpu := 1,
    workspaceTransition := some "start" }

/-- A spec carrying two requested network interfaces. -/
def c4Spec : VMSpec :=
  { name := "w1", ns := some "ns", image := "img", memory := "1Gi", cpu := 1,
    networkInterfaces := some ["net1", "net2"] }

/-- The spec of the create scenario in the specification. -/
def c5Spec : VMSpec :=
  { name := "w1", ns := some "ns", image := "img:latest", memory := "2Gi", cpu := 2,
    workspaceTransition := some "start" }

/-- A remote VirtualMachine object as fetched from the store, carrying a
resource version and `running=false`. -/
def c6VM : VMManifest :=
  { name := "w1", ns := "ns", resourceVersion := some "42", running := false,
    templateLabels := [("kubevirt.io/vm", "w1")],
    tmpl :=
      { domain :=
          { disks := [], interfaces := [],
            resources := { memory := "1Gi", cpu := 1 } },
        volumes := [], networks := [] } }

/-- A spec requesting the `start` transition while updating. -/
def c6Spec : VMSpec :=
  { name := "w1", ns := some "ns", image := "img", memory := "1Gi", cpu := 1,
    workspaceTransition := some "start" }

/-- A 2100-byte cloud-init payload, over the inline limit. -/
def bigPayload : String := String.mk (List.replicate 2100 'a')

/-- A spec whose cloud-init payload overflows the inline limit. -/
def c7Spec : VMSpec :=
  { name := "w1", ns := some "ns", image := "img", memory := "1Gi", cpu := 1,
    cloudInit := some bigPayload }

/-- A 2048-byte raw payload: exactly at the inline limit on its own. -/
def rawPayload : String := String.mk (List.replicate 2048 'a')

/-- A spec combining an at-limit raw payload with an agent token, so that
only the wrapped text exceeds the inline limit. -/
def c8Spec : VMSpec :=
  { name := "w1", ns := some "ns", image := "img", memory := "1Gi", cpu := 1,
    cloudInit := some rawPayload, coderAgentToken := some "tok" }

/-- A spec whose recorded transition is `start` when `Delete` is called. -/
def c9Spec : VMSpec :=
  { name := "w1", ns := some "ns", image := "img", memory := "1Gi", cpu := 1,
    workspaceTransition := some "start" }

/-- A spec whose recorded transition is `stop` when `Delete` is called. -/
def c9StopSpec : VMSpec :=
  { name := "w1", ns := some "ns", image := "img", memory := "1Gi", cpu := 1,
    workspaceTransition := some "stop" }

/-- A spec with no cloud-init payload but with an agent token. -/
def c10Spec : VMSpec :=
  { name := "w1", ns := some "ns", image := "img", memory := "1Gi", cpu := 1,
    coderAgentToken := some "tok" }

/-! ## Helper lemmas -/

theorem splitFirstL_append (c : Char) (a b : List Char) (h : c ∉ a) :
    splitFirstL c (a ++ c :: b) = (a, b) := by
  induction a with
  | nil => simp [splitFirstL]
  | cons x xs ih =>
    have hxc : ¬ (x = c) := fun hx => h (hx ▸ List.mem_cons_self x xs)
    have hm : c ∉ xs := fun hc => h (List.mem_cons_of_mem x hc)
    simp only [List.cons_append, splitFirstL, if_neg hxc, List.append_eq]
    rw [ih hm]

theorem contains_eq_false_of_not_mem (c : Char) (l : List Char) (h : c ∉ l) :
    l.contains c = false := by
  cases hb : l.contains c
  · rfl
  · exact absurd (List.elem_iff.mp hb) h

theorem utf8ByteSize_mk_cons (c : Char) (l : List Char) :
    (String.mk (c :: l)).utf8ByteSize = (String.mk l).utf8ByteSize + c.utf8Size := by
  simp [String.utf8ByteSize, String.utf8ByteSize.go]

theorem utf8ByteSize_mk_replicate (n : Nat) (c : Char) :
    (String.mk (List.replicate n c)).utf8ByteSize = n * c.utf8Size := by
  induction n with
  | zero => simp [String.utf8ByteSize, String.utf8ByteSize.go]
  | succ m ih =>
    rw [List.replicate_succ, utf8ByteSize_mk_cons, ih]
    ring

theorem utf8ByteSize_append (s t : String) :
    (s ++ t).utf8ByteSize = s.utf8ByteSize + t.utf8ByteSize := by
  obtain ⟨a⟩ := s
  obtain ⟨b⟩ := t
  show (String.mk (a ++ b)).utf8ByteSize = _
  induction a with
  | nil => simp [String.utf8ByteSize, String.utf8ByteSize.go]
  | cons x xs ih =>
    rw [List.cons_append, utf8ByteSize_mk_cons, utf8ByteSize_mk_cons, ih]
    ring

theorem bigPayload_over_limit : cloudInitLimit < bigPayload.utf8ByteSize := by
  rw [show bigPayload = String.mk (List.replicate 2100 'a') from rfl,
    utf8ByteSize_mk_replicate]
  decide

theorem rawPayload_at_limit : rawPayload.utf8ByteSize = 2048 := by
  rw [show rawPayload = String.mk (List.replicate 2048 'a') from rfl,
    utf8ByteSize_mk_replicate]
  decide

theorem wrapped_rawPayload_over_limit :
    cloudInitLimit < (wrapCoderAgent rawPayload "tok").utf8ByteSize := by
  have h2 : coderWrapA.utf8ByteSize = 14 := by decide
  simp only [wrapCoderAgent, utf8ByteSize_append, h2, rawPayload_at_limit, cloudInitLimit]
  omega

/-! ## Claim theorems -/

/-- C1: for every cloud-init payload (after any agent-token wrapping), a
byte length of at most 2048 keeps the payload inline in the cloudinitdisk
volume's userData field with no Secret created, while 2049 bytes or more
makes the volume reference the secondary Secret by name, and the Secret
create call is issued before the VirtualMachine create. -/
theorem c1_cloudinit_inline_threshold (d : VMSpec) (ns ci : String)
    (secretRes : CreateResult) (vmErr : Option String)
    (hci : effectiveCloudInit d = some ci) :
    (ci.utf8ByteSize ≤ 2048 →
      (buildManifest d ns).tmpl.volumes =
        [{ name := "containerdisk", containerDiskImage := some d.image },
         { name := "cloudinitdisk", cloudInitUserData := some ci }] ∧
      (createVM d ns secretRes vmErr).calls = [.createVM (buildManifest d ns)]) ∧
    (2049 ≤ ci.utf8ByteSize →
      (buildManifest d ns).tmpl.volumes =
        [{ name := "containerdisk", containerDiskImage := some d.image },
         { name := "cloudinitdisk", cloudInitSecretRef := some (cloudInitSecretName d) }] ∧
      (createVM d ns secretRes vmErr).calls.head? =
        some (.createSecret (buildCloudInitSecret d ns ci))) := by
  constructor
  · intro hle
    have hnot : ¬ (cloudInitLimit < ci.utf8ByteSize) := by
      simp only [cloudInitLimit]; omega
    constructor
    · simp [buildManifest, cloudInitVolumeFor, hci, hnot]
    · cases vmErr <;> simp [createVM, hci, createVMAux, hnot, finishCreateVM]
  · intro hge
    have hlt : cloudInitLimit < ci.utf8ByteSize := by simp only [cloudInitLimit]; omega
    constructor
    · simp [buildManifest, cloudInitVolumeFor, hci, hlt]
    · cases secretRes <;> cases vmErr <;>
        simp [createVM, hci, createVMAux, hlt, finishCreateVM]

/-- C1 witness: a 5-byte payload stays inline and no Secret call is
issued. -/
theorem c1_cloudinit_inline_threshold_witness :
    "hello".utf8ByteSize ≤ 2048 ∧
    ((buildManifest c1Spec "ns").tmpl.volumes =
        [{ name := "containerdisk", containerDiskImage := some c1Spec.image },
         { name := "cloudinitdisk", cloudInitUserData := some "hello" }] ∧
      (createVM c1Spec "ns" .ok none).calls = [.createVM (buildManifest c1Spec "ns")]) :=
  ⟨by decide, (c1_cloudinit_inline_threshold c1Spec "ns" "hello" .ok none rfl).1 (by decide)⟩

/-- C2 counterexample: for the string `gpu=true:NoSchedule` of the form
key=value:effect, the emitted toleration object does not carry operator
`Equal` — the source sets no operator key at all in that branch. -/
theorem c2_equal_operator_counterexample :
    ¬ (parseToleration "gpu=true:NoSchedule").operator = some "Equal" := by decide

/-- C2 amended: for `key=value:effect` the emitted object carries key,
value and effect but no operator field (rather than operator `Equal`); for
`key:effect` without `=` the operator is `Exists`; for a string with no
colon the key is kept with operator `Exists` and effect `NoSchedule`. -/
theorem c2_toleration_grammar_amended :
    ∀ (k v e tol : String),
      ((':' ∉ k.toList) → ('=' ∉ k.toList) → (':' ∉ v.toList) →
        parseToleration (k ++ "=" ++ v ++ ":" ++ e) =
          { key := some k, value := some v, operator := none, effect := some e }) ∧
      ((':' ∉ k.toList) → ('=' ∉ k.toList) →
        parseToleration (k ++ ":" ++ e) =
          { key := some k, value := none, operator := some "Exists", effect := some e }) ∧
      ((':' ∉ tol.toList) →
        parseToleration tol =
          { key := some tol, value := none, operator := some "Exists",
            effect := some "NoSchedule" }) := by
  intro k v e tol
  obtain ⟨kl⟩ := k
  obtain ⟨vl⟩ := v
  obtain ⟨el⟩ := e
  refine ⟨?_, ?_, ?_⟩
  · intro hk1 hk2 hv
    have hk1' : ':' ∉ kl := hk1
    have hk2' : '=' ∉ kl := hk2
    have hv' : ':' ∉ vl := hv
    have hdata : (String.mk kl ++ "=" ++ String.mk vl ++ ":" ++ String.mk el).toList
        = (kl ++ '=' :: vl) ++ ':' :: el := by
      show (String.mk kl ++ "=" ++ String.mk vl ++ ":" ++ String.mk el).data = _
      simp [String.data_append]
    have hnotmem : ':' ∉ kl ++ '=' :: vl := by
      intro hmem
      rcases List.mem_append.mp hmem with h1 | h2
      · exact hk1' h1
      · rcases List.mem_cons.mp h2 with h3 | h4
        · exact absurd h3 (by decide)
        · exact hv' h4
    have e2 : splitFirstL ':' (kl ++ '=' :: (vl ++ ':' :: el)) = (kl ++ '=' :: vl, el) := by
      have h0 := splitFirstL_append ':' (kl ++ '=' :: vl) el hnotmem
      simpa using h0
    have e4 : splitFirstL '=' (kl ++ '=' :: vl) = (kl, vl) :=
      splitFirstL_append '=' kl vl hk2'
    simp [parseToleration, hdata, e2, e4]
  · intro hk1 hk2
    have hk1' : ':' ∉ kl := hk1
    have hk2' : '=' ∉ kl := hk2
    have hdata : (String.mk kl ++ ":" ++ String.mk el).toList = kl ++ ':' :: el := by
      show (String.mk kl ++ ":" ++ String.mk el).data = _
      simp [String.data_append]
    have e2 : splitFirstL ':' (kl ++ ':' :: el) = (kl, el) :=
      splitFirstL_append ':' kl el hk1'
    simp [parseToleration, hdata, e2, hk2']
  · intro ht
    have ht' : ':' ∉ tol.data := ht
    simp only [parseToleration, String.toList]
    rw [contains_eq_false_of_not_mem ':' tol.data ht']
    simp

/-- C2 witness: the three grammar shapes evaluated at concrete strings. -/
theorem c2_toleration_grammar_amended_witness :
    parseToleration "k=v:NoExecute" =
      { key := some "k", value := some "v", operator := none,
        effect := some "NoExecute" } ∧
    parseToleration "k:NoExecute" =
      { key := some "k", value := none, operator := some "Exists",
        effect := some "NoExecute" } ∧
    parseToleration "plain" =
      { key := some "plain", value := none, operator := some "Exists",
        effect := some "NoSchedule" } :=
  ⟨(c2_toleration_grammar_amended "k" "v" "NoExecute" "plain").1
      (by decide) (by decide) (by decide),
   (c2_toleration_grammar_amended "k" "v" "NoExecute" "plain").2.1
      (by decide) (by decide),
   (c2_toleration_grammar_amended "k" "v" "NoExecute" "plain").2.2 (by decide)⟩

/-- C3 counterexample: an update whose requested transition `start` equals
the prior recorded transition executes no gateway call at all — it is
short-circuited, contrary to the claim. -/
theorem c3_same_transition_counterexample :
    c3Spec.workspaceTransition = some "start" ∧
    (updateFlow c3Spec "start" "default" { getRes := .notFound }).calls = [] :=
  ⟨rfl, rfl⟩

/-- C3 amended: an update request whose transition equals the prior
recorded transition is short-circuited: no gateway call is executed and
the call succeeds without fetching, updating or creating. -/
theorem c3_same_transition_short_circuit (d : VMSpec) (t pns : String)
    (env : UpdateEnv) (h : d.workspaceTransition = some t) :
    (updateFlow d t pns env).calls = [] ∧ (updateFlow d t pns env).err = none ∧
      (updateFlow d t pns env).vmStatus = none := by
  have hflow : updateFlow d t pns env = {} := by
    simp only [updateFlow, h]
    rw [if_neg, if_neg]
    · rintro ⟨h1, h2⟩; exact h2 h1
    · rintro ⟨h1, h2⟩; exact h2 h1
  rw [hflow]
  exact ⟨rfl, rfl, rfl⟩

/-- C3 witness: the short-circuit evaluated on a concrete repeated
`start`. -/
theorem c3_same_transition_short_circuit_witness :
    (updateFlow c3Spec "start" "default" { getRes := .notFound }).calls = [] ∧
    (updateFlow c3Spec "start" "default" { getRes := .notFound }).err = none ∧
    (updateFlow c3Spec "start" "default" { getRes := .notFound }).vmStatus = none :=
  c3_same_transition_short_circuit c3Spec "start" "default" { getRes := .notFound } rfl

/-- C4 counterexample: a spec requesting two network interfaces still
yields a manifest with a single interface entry, so there is no per-
interface correspondence. -/
theorem c4_network_interfaces_counterexample :
    c4Spec.networkInterfaces = some ["net1", "net2"] ∧
    (buildManifest c4Spec "ns").tmpl.domain.interfaces.length = 1 ∧
    ¬ ((buildManifest c4Spec "ns").tmpl.domain.interfaces.length = 2) := by
  decide

/-- C4 amended: the network_interfaces list is ignored — for every spec
the manifest carries exactly one default bridged interface and one
pod-backed network. -/
theorem c4_default_network_always (d : VMSpec) (ns : String) :
    (buildManifest d ns).tmpl.domain.interfaces =
      [{ name := "default", binding := "bridge" }] ∧
    (buildManifest d ns).tmpl.networks = [{ name := "default", binding := "pod" }] :=
  ⟨rfl, rfl⟩

/-- C5: the create scenario — name w1, namespace ns, image img:latest,
memory 2Gi, cpu 2, transition start — issues exactly one create call whose
manifest has running=true, the requested resources, and one containerdisk
volume with that image; the resulting status is Created. -/
theorem c5_create_scenario :
    createFlow c5Spec "default" .ok none =
      { calls := [.createVM (buildManifest c5Spec "ns")], err := none,
        id := some "ns/w1", vmStatus := some "Created" } ∧
    (buildManifest c5Spec "ns").running = true ∧
    (buildManifest c5Spec "ns").tmpl.domain.resources.memory = "2Gi" ∧
    (buildManifest c5Spec "ns").tmpl.domain.resources.cpu = 2 ∧
    (buildManifest c5Spec "ns").tmpl.volumes =
      [{ name := "containerdisk", containerDiskImage := some "img:latest" }] :=
  ⟨rfl, rfl, rfl, rfl, rfl⟩

/-- C6: a start transition executed against a present remote object issues
exactly one get followed by exactly one update, and the updated manifest
is the fetched copy with only spec.running flipped to true — name,
namespace, apiVersion, kind, resourceVersion, labels, annotations and the
whole template are carried through unchanged. -/
theorem c6_start_on_present_update (d : VMSpec) (old pns : String)
    (vm : VMManifest) (env : UpdateEnv)
    (htr : d.workspaceTransition = some "start") (hold : old ≠ "start")
    (hget : env.getRes = .found vm) (hupd : env.vmUpdateErr = none) :
    updateFlow d old pns env =
      { calls := [.getVM (planNamespace d pns) d.name, .updateVM (setRunning vm true)],
        vmStatus := some "Running" } ∧
    (setRunning vm true).running = true ∧
    (setRunning vm true).resourceVersion = vm.resourceVersion ∧
    (setRunning vm true).name = vm.name ∧
    (setRunning vm true).ns = vm.ns ∧
    (setRunning vm true).apiVersion = vm.apiVersion ∧
    (setRunning vm true).kind = vm.kind ∧
    (setRunning vm true).templateLabels = vm.templateLabels ∧
    (setRunning vm true).hookSidecars = vm.hookSidecars ∧
    (setRunning vm true).tmpl = vm.tmpl := by
  refine ⟨?_, rfl, rfl, rfl, rfl, rfl, rfl, rfl, rfl, rfl⟩
  simp [updateFlow, htr, hold, hget, hupd]

/-- C6 witness: the start-on-present update evaluated on a concrete
fetched object with a resource version. -/
theorem c6_start_on_present_update_witness :
    updateFlow c6Spec "stop" "default" { getRes := .found c6VM } =
      { calls := [.getVM (planNamespace c6Spec "default") c6Spec.name,
                  .updateVM (setRunning c6VM true)],
        vmStatus := some "Running" } ∧
    (setRunning c6VM true).running = true ∧
    (setRunning c6VM true).resourceVersion = c6VM.resourceVersion ∧
    (setRunning c6VM true).name = c6VM.name ∧
    (setRunning c6VM true).ns = c6VM.ns ∧
    (setRunning c6VM true).apiVersion = c6VM.apiVersion ∧
    (setRunning c6VM true).kind = c6VM.kind ∧
    (setRunning c6VM true).templateLabels = c6VM.templateLabels ∧
    (setRunning c6VM true).hookSidecars = c6VM.hookSidecars ∧
    (setRunning c6VM true).tmpl = c6VM.tmpl :=
  c6_start_on_present_update c6Spec "stop" "default" c6VM
    { getRes := .found c6VM } rfl (by decide) rfl rfl

/-- C7: in the overflow branch the Secret name is the string coder- then
the VM name then -cloudinit, with the payload base64-encoded under the
single key userdata; an already-exists failure of the Secret create is treated as
success and the VirtualMachine create proceeds, while any other failure
aborts the whole creation before the VirtualMachine create is issued. -/
theorem c7_overflow_secret_convention (d : VMSpec) (ns ci : String)
    (vmErr : Option String) (e : String)
    (hci : effectiveCloudInit d = some ci) (hsz : cloudInitLimit < ci.utf8ByteSize) :
    (buildCloudInitSecret d ns ci).name = "coder-" ++ d.name ++ "-cloudinit" ∧
    (buildCloudInitSecret d ns ci).data = [("userdata", base64Encode ci)] ∧
    (createVM d ns .alreadyExists vmErr).calls =
      [.createSecret (buildCloudInitSecret d ns ci), .createVM (buildManifest d ns)] ∧
    (createVM d ns .alreadyExists none).result = .ok (buildManifest d ns) ∧
    createVM d ns (.failed e) vmErr =
      { calls := [.createSecret (buildCloudInitSecret d ns ci)],
        result := .error ("failed to create cloud-init secret: " ++ e) } := by
  refine ⟨rfl, rfl, ?_, ?_, ?_⟩
  · cases vmErr <;> simp [createVM, hci, createVMAux, hsz, finishCreateVM]
  · simp [createVM, hci, createVMAux, hsz, finishCreateVM]
  · simp [createVM, hci, createVMAux, hsz]

/-- C7 witness: a 2100-byte payload takes the overflow branch; with an
already-exists Secret response the VirtualMachine create still runs. -/
theorem c7_overflow_secret_convention_witness :
    cloudInitLimit < bigPayload.utf8ByteSize ∧
    (createVM c7Spec "ns" .alreadyExists none).calls =
      [.createSecret (buildCloudInitSecret c7Spec "ns" bigPayload),
       .createVM (buildManifest c7Spec "ns")] :=
  ⟨bigPayload_over_limit,
   (c7_overflow_secret_convention c7Spec "ns" bigPayload none "boom" rfl
      bigPayload_over_limit).2.2.1⟩

/-- C8: when an agent token is supplied the payload is wrapped with the
fixed bootstrap template before the 2048-byte comparison, unconditionally;
the inline-versus-secret decision is taken on the wrapped text's byte
length, not the raw payload's. -/
theorem c8_wrap_before_size_check (d : VMSpec) (ns raw t : String)
    (hrw : d.cloudInit = some raw) (htok : d.coderAgentToken = some t) :
    effectiveCloudInit d = some (wrapCoderAgent raw t) ∧
    ((wrapCoderAgent raw t).utf8ByteSize ≤ cloudInitLimit →
      (buildManifest d ns).tmpl.volumes =
        [{ name := "containerdisk", containerDiskImage := some d.image },
         { name := "cloudinitdisk", cloudInitUserData := some (wrapCoderAgent raw t) }]) ∧
    (cloudInitLimit < (wrapCoderAgent raw t).utf8ByteSize →
      (buildManifest d ns).tmpl.volumes =
        [{ name := "containerdisk", containerDiskImage := some d.image },
         { name := "cloudinitdisk", cloudInitSecretRef := some (cloudInitSecretName d) }]) := by
  have heff : effectiveCloudInit d = some (wrapCoderAgent raw t) := by
    simp [effectiveCloudInit, hrw, htok]
  refine ⟨heff, ?_, ?_⟩
  · intro hle
    have hnot : ¬ (cloudInitLimit < (wrapCoderAgent raw t).utf8ByteSize) := by omega
    simp [buildManifest, cloudInitVolumeFor, heff, hnot]
  · intro hlt
    simp [buildManifest, cloudInitVolumeFor, heff, hlt]

/-- C8 witness: a raw payload of exactly 2048 bytes is under the limit on
its own, yet with a token the wrapped text exceeds the limit and the
manifest takes the secret-reference branch. -/
theorem c8_wrap_before_size_check_witness :
    rawPayload.utf8ByteSize ≤ 2048 ∧
    cloudInitLimit < (wrapCoderAgent rawPayload "tok").utf8ByteSize ∧
    (buildManifest c8Spec "ns").tmpl.volumes =
      [{ name := "containerdisk", containerDiskImage := some c8Spec.image },
       { name := "cloudinitdisk", cloudInitSecretRef := some (cloudInitSecretName c8Spec) }] :=
  ⟨le_of_eq rawPayload_at_limit, wrapped_rawPayload_over_limit,
   (c8_wrap_before_size_check c8Spec "ns" rawPayload "tok" rfl rfl).2.2
      wrapped_rawPayload_over_limit⟩

/-- C9 counterexample: a delete request whose prior recorded transition is
`start` issues no remote delete at all, contrary to the claim that the
remote object is deleted regardless of prior recorded state. -/
theorem c9_delete_skip_counterexample :
    c9Spec.workspaceTransition = some "start" ∧
    (deleteFlow c9Spec "default" .ok).calls = [] ∧
    (deleteFlow c9Spec "default" .ok).err = none :=
  ⟨rfl, rfl, rfl⟩

/-- C9 amended: the framework resource's delete issues the remote delete
only when the recorded workspace transition is unset, `stop` or `delete`
(not-found and success are then both non-errors); with any other recorded
transition it returns success without deleting.  The legacy SDK delete
handler treats not-found as success unconditionally. -/
theorem c9_delete_behavior_amended (d : VMSpec) (pns : String)
    (delRes : DeleteResult) :
    ((d.workspaceTransition = none ∨ d.workspaceTransition = some "stop" ∨
        d.workspaceTransition = some "delete") →
      (deleteFlow d pns delRes).calls = [.deleteVM (stateNamespace d pns) d.name] ∧
      (delRes = .notFound → (deleteFlow d pns delRes).err = none) ∧
      (delRes = .ok → (deleteFlow d pns delRes).err = none)) ∧
    (∀ t, d.workspaceTransition = some t → t ≠ "stop" → t ≠ "delete" →
      deleteFlow d pns delRes = {}) ∧
    resourceKubevirtVirtualMachineDelete .notFound = none ∧
    resourceKubevirtVirtualMachineDelete .ok = none := by
  refine ⟨?_, ?_, rfl, rfl⟩
  · intro h
    have hskip : (match d.workspaceTransition with
        | some t => t != "stop" && t != "delete"
        | none => false) = false := by
      rcases h with h | h | h <;> rw [h] <;> decide
    refine ⟨?_, ?_, ?_⟩ <;> cases delRes <;> simp [deleteFlow, hskip]
  · intro t ht h1 h2
    have e1 : (t != "stop") = true := bne_iff_ne.mpr h1
    have e2 : (t != "delete") = true := bne_iff_ne.mpr h2
    simp [deleteFlow, ht, e1, e2]

/-- C9 witness: delete with recorded transition `stop` issues the remote
delete, and a not-found response is success. -/
theorem c9_delete_behavior_amended_witness :
    (deleteFlow c9StopSpec "default" .notFound).calls =
      [.deleteVM (stateNamespace c9StopSpec "default") c9StopSpec.name] ∧
    (deleteFlow c9StopSpec "default" .notFound).err = none :=
  ⟨((c9_delete_behavior_amended c9StopSpec "default" .notFound).1
      (Or.inr (Or.inl rfl))).1,
   ((c9_delete_behavior_amended c9StopSpec "default" .notFound).1
      (Or.inr (Or.inl rfl))).2.1 rfl⟩

/-- C10: when the cloud-init payload is absent the manifest carries
exactly the containerdisk volume — no cloudinitdisk volume — and no Secret
call is ever issued, even when an agent token is supplied. -/
theorem c10_no_cloudinit_no_volume (d : VMSpec) (ns : String)
    (secretRes : CreateResult) (vmErr : Option String) (h : d.cloudInit = none) :
    (buildManifest d ns).tmpl.volumes =
      [{ name := "containerdisk", containerDiskImage := some d.image }] ∧
    (createVM d ns secretRes vmErr).calls = [.createVM (buildManifest d ns)] := by
  have heff : effectiveCloudInit d = none := by simp [effectiveCloudInit, h]
  constructor
  · simp [buildManifest, cloudInitVolumeFor, heff]
  · cases vmErr <;> simp [createVM, heff, createVMAux, finishCreateVM]

/-- C10 witness: a spec with an agent token but no cloud-init payload
yields only the containerdisk volume and a single create call. -/
theorem c10_no_cloudinit_no_volume_witness :
    (buildManifest c10Spec "ns").tmpl.volumes =
      [{ name := "containerdisk", containerDiskImage := some c10Spec.image }] ∧
    (createVM c10Spec "ns" .ok none).calls = [.createVM (buildManifest c10Spec "ns")] :=
  c10_no_cloudinit_no_volume c10Spec "ns" .ok none rfl

end KubeVirtTF
